import Mathlib

/-!
Verification development for the geospatial-app-vite repository.

The repository's core logic lives in two components:
  - src/TurtleMap.jsx: week-indexed windowing, spatial-temporal filtering of
    turtle / trend / vessel records, vessel date-to-day-index conversion,
    load-time CSV row validation, and the turtle/vessel proximity detector;
  - src/Map.jsx: the continuous-cursor variant: floor-based window derivation,
    hour-of-day labelling, and the playback tick that advances the cursor.

JavaScript numbers that come out of parseFloat / parseInt are modelled by
an inductive type JsNum: either NaN (failed parse) or a finite value,
represented as a rational.  JS comparison operators return false whenever an
operand is NaN, and JS arithmetic propagates NaN; both are mirrored below.
(Infinities are not modelled; no claim under study involves them.)
Dates are modelled by their millisecond timestamps, as integers, matching the
numeric coercion the source applies when subtracting two Date objects.
-/

namespace GeoApp

/-- A parsed JavaScript numeric field: NaN (failed numeric parsing) or a
finite value, modelled as a rational. -/
inductive JsNum where
  | nan : JsNum
  | val (q : ℚ) : JsNum
deriving DecidableEq

/-- JS comparison `x >= b` where `b` is a known (non-NaN) number: any
comparison with NaN yields false. -/
def JsNum.geNum : JsNum → ℚ → Bool
  | JsNum.nan, _ => false
  | JsNum.val a, b => decide (b ≤ a)

/-- JS comparison `x < b` where `b` is a known (non-NaN) number: any
comparison with NaN yields false. -/
def JsNum.ltNum : JsNum → ℚ → Bool
  | JsNum.nan, _ => false
  | JsNum.val a, b => decide (a < b)

/-- JS `isNaN` test on a parsed numeric field. -/
def JsNum.isNaN : JsNum → Bool
  | JsNum.nan => true
  | JsNum.val _ => false

/-- JS subtraction: NaN-propagating. -/
def JsNum.sub : JsNum → JsNum → JsNum
  | JsNum.val a, JsNum.val b => JsNum.val (a - b)
  | _, _ => JsNum.nan

/-- JS multiplication: NaN-propagating. -/
def JsNum.mul : JsNum → JsNum → JsNum
  | JsNum.val a, JsNum.val b => JsNum.val (a * b)
  | _, _ => JsNum.nan

/-- JS addition: NaN-propagating. -/
def JsNum.add : JsNum → JsNum → JsNum
  | JsNum.val a, JsNum.val b => JsNum.val (a + b)
  | _, _ => JsNum.nan

/-- The rational value of a non-NaN JsNum (0 on NaN; only used under a
non-NaN hypothesis). -/
def JsNum.toQ : JsNum → ℚ
  | JsNum.nan => 0
  | JsNum.val q => q

theorem JsNum.eq_val_toQ {x : JsNum} (h : x.isNaN = false) : x = JsNum.val x.toQ := by
  cases x with
  | nan => simp [JsNum.isNaN] at h
  | val q => rfl

/-- A parsed sighting/trend CSV row (TurtleMap.jsx lines 226-234): latitude,
longitude and time_index come from parseFloat / parseInt and may be NaN;
is_trend is the boolean tag. -/
structure TurtleRec where
  latitude : JsNum
  longitude : JsNum
  time_index : JsNum
  is_trend : Bool
deriving DecidableEq

/-- A parsed vessel-presence CSV row (TurtleMap.jsx lines 240-247): latitude,
longitude and presence_hours come from parseFloat and may be NaN; dateMs is
the millisecond timestamp of the parsed date. -/
structure VesselRec where
  latitude : JsNum
  longitude : JsNum
  dateMs : ℤ
  presence_hours : JsNum
deriving DecidableEq

/-- TIME_WINDOW_DAYS constant (both source files): the window length. -/
def TIME_WINDOW_DAYS : ℤ := 7

/-- The spatial-temporal filter of TurtleMap.jsx lines 262-267 (turtlesThisWeek
and trendsThisWeek): keep a record iff
time_index >= filterRange[0] && time_index < filterRange[1], with JS
comparison semantics (false on NaN). -/
def filterInWindow (records : List TurtleRec) (startDay endDayExclusive : ℚ) :
    List TurtleRec :=
  records.filter (fun d =>
    d.time_index.geNum startDay && d.time_index.ltNum endDayExclusive)

/-- A sighting record at the origin with the given time index, used for the
concrete filter examples. -/
def sampleRec (t : ℚ) : TurtleRec :=
  { latitude := JsNum.val 0, longitude := JsNum.val 0,
    time_index := JsNum.val t, is_trend := false }

/-- The record list of spec test 3: time indices -1, 0, 6, 7, 13. -/
def sampleRecords : List TurtleRec :=
  [sampleRec (-1), sampleRec 0, sampleRec 6, sampleRec 7, sampleRec 13]

/-- C1: for every record list and window, the filter keeps exactly the records
r with startDay <= r.timeIndex < endDayExclusive (half-open on the right);
on time indices [-1, 0, 6, 7, 13] with window [0,7) it returns exactly the
records with time index 0 and 6. -/
theorem filter_in_window_spec :
    (∀ (records : List TurtleRec) (a b : ℚ) (r : TurtleRec) (t : ℚ),
        r.time_index = JsNum.val t →
        (r ∈ filterInWindow records a b ↔ r ∈ records ∧ a ≤ t ∧ t < b))
    ∧ filterInWindow sampleRecords 0 7 = [sampleRec 0, sampleRec 6] := by
  constructor
  · intro records a b r t ht
    simp [filterInWindow, List.mem_filter, ht, JsNum.geNum, JsNum.ltNum,
      and_assoc]
  · decide

/-- C1 witness: the filter characterization at a concrete record and window. -/
theorem filter_in_window_spec_witness :
    sampleRec 6 ∈ filterInWindow sampleRecords 0 7 :=
  (filter_in_window_spec.1 sampleRecords 0 7 (sampleRec 6) 6 rfl).mpr
    ⟨by decide, by norm_num, by norm_num⟩

/-- C7: the filter is idempotent (applying it twice with the same window
equals applying it once) and order-preserving (its output is a sublist of its
input, hence keeps the input's relative order).  Mutation of the record store
is not expressible here: the embedding is purely functional, exactly as the
source's Array.prototype.filter leaves its receiver untouched. -/
theorem filter_idempotent_order_preserving :
    ∀ (records : List TurtleRec) (a b : ℚ),
      filterInWindow (filterInWindow records a b) a b = filterInWindow records a b
      ∧ (filterInWindow records a b).Sublist records := by
  intro records a b
  refine ⟨?_, List.filter_sublist records⟩
  simp [filterInWindow, List.filter_filter]

/-- The startDayIndex derivation of TurtleMap.jsx line 258:
currentWeek * TIME_WINDOW_DAYS. -/
def startDayIndex (currentWeek : ℤ) : ℤ := currentWeek * TIME_WINDOW_DAYS

/-- The week-mode filter range of TurtleMap.jsx line 259:
[startDayIndex, startDayIndex + TIME_WINDOW_DAYS]. -/
def weekFilterRange (currentWeek : ℤ) : ℤ × ℤ :=
  (startDayIndex currentWeek, startDayIndex currentWeek + TIME_WINDOW_DAYS)

/-- C5: in discrete week mode the derived window is
[w * 7, w * 7 + 7); for w = 3 this is [21, 28). -/
theorem week_mode_window_derivation :
    (∀ w : ℤ, weekFilterRange w = (w * 7, w * 7 + 7))
    ∧ weekFilterRange 3 = (21, 28) := by
  constructor
  · intro w
    rfl
  · decide

/-- Milliseconds per day, the divisor 1000 * 60 * 60 * 24 of
TurtleMap.jsx line 39. -/
def MS_PER_DAY : ℤ := 1000 * 60 * 60 * 24

/-- The getDayIndex conversion of TurtleMap.jsx lines 36-40:
Math.floor((dateObj - minDateObj) / (1000*60*60*24)), on millisecond
timestamps.  (The null short-circuit for a missing minDate is handled by the
caller's guard at line 256 and is not modelled.) -/
def getDayIndex (dateMs minDateMs : ℤ) : ℤ :=
  ⌊(((dateMs - minDateMs : ℤ) : ℚ) / ((MS_PER_DAY : ℤ) : ℚ))⌋

/-- The vessel filter of TurtleMap.jsx lines 268-271: keep a vessel record iff
its derived day index lies in [startDayIndex, startDayIndex + 7). -/
def vesselsThisWeek (vesselData : List VesselRec) (minDateMs startDay : ℤ) :
    List VesselRec :=
  vesselData.filter (fun d =>
    let dayIndex := getDayIndex d.dateMs minDateMs
    decide (startDay ≤ dayIndex) && decide (dayIndex < startDay + TIME_WINDOW_DAYS))

/-- A vessel record 9 days after a reference date at timestamp 0, used for
the concrete date-to-index example. -/
def sampleVessel : VesselRec :=
  { latitude := JsNum.val 45, longitude := JsNum.val (-62),
    dateMs := 9 * MS_PER_DAY, presence_hours := JsNum.val 1 }

/-- C6: a vessel record dated d derives timeIndex floor((d - minDate)/1 day)
and passes the window [a, a+7) iff a <= derived index < a+7; a record dated
minDate + 9 days derives index 9, is kept by window [7,14) and dropped by
window [0,7). -/
theorem vessel_date_to_index_spec :
    (∀ (vesselData : List VesselRec) (m s : ℤ) (v : VesselRec),
        v ∈ vesselsThisWeek vesselData m s ↔
          v ∈ vesselData ∧ s ≤ getDayIndex v.dateMs m
            ∧ getDayIndex v.dateMs m < s + 7)
    ∧ (∀ m : ℤ, getDayIndex (m + 9 * MS_PER_DAY) m = 9)
    ∧ vesselsThisWeek [sampleVessel] 0 7 = [sampleVessel]
    ∧ vesselsThisWeek [sampleVessel] 0 0 = [] := by
  have h9 : ∀ m : ℤ, getDayIndex (m + 9 * MS_PER_DAY) m = 9 := by
    intro m
    have h : ((m + 9 * MS_PER_DAY - m : ℤ) : ℚ) / ((MS_PER_DAY : ℤ) : ℚ) = 9 := by
      have hm : (m + 9 * MS_PER_DAY - m : ℤ) = 9 * MS_PER_DAY := by ring
      rw [hm]
      push_cast
      norm_num [MS_PER_DAY]
    rw [getDayIndex, h]
    exact Int.floor_intCast 9
  have h90 : getDayIndex sampleVessel.dateMs 0 = 9 := by
    have := h9 0
    rw [zero_add] at this
    exact this
  refine ⟨?_, h9, ?_, ?_⟩
  · intro vesselData m s v
    simp [vesselsThisWeek, List.mem_filter, TIME_WINDOW_DAYS, and_assoc]
  · simp [vesselsThisWeek, List.filter, h90, TIME_WINDOW_DAYS]
  · simp [vesselsThisWeek, List.filter, h90, TIME_WINDOW_DAYS]

/-- PROXIMITY_THRESHOLD_DEG constant of TurtleMap.jsx line 18. -/
def PROXIMITY_THRESHOLD_DEG : ℚ := 1/2

/-- The proximity detector of TurtleMap.jsx lines 273-288: when both weekly
subsets are nonempty, scan vessel/turtle pairs and report whether some pair
has squared planar degree-space distance strictly below the squared
threshold; otherwise false.  The source's nested for-loops with early break
compute exactly this existential, rendered here as a double List.any. -/
def proximityFound (turtles : List TurtleRec) (vessels : List VesselRec)
    (thresholdDeg : ℚ) : Bool :=
  if decide (0 < turtles.length) && decide (0 < vessels.length) then
    let thresholdSquared := thresholdDeg * thresholdDeg
    vessels.any (fun vessel =>
      turtles.any (fun turtle =>
        let dx := vessel.longitude.sub turtle.longitude
        let dy := vessel.latitude.sub turtle.latitude
        let distSquared := (dx.mul dx).add (dy.mul dy)
        distSquared.ltNum thresholdSquared))
  else false

theorem proximity_pair_check (v : VesselRec) (u : TurtleRec) (t : ℚ)
    (hu1 : u.longitude.isNaN = false) (hu2 : u.latitude.isNaN = false)
    (hv1 : v.longitude.isNaN = false) (hv2 : v.latitude.isNaN = false) :
    ((((v.longitude.sub u.longitude).mul (v.longitude.sub u.longitude)).add
        ((v.latitude.sub u.latitude).mul (v.latitude.sub u.latitude))).ltNum
      (t * t) = true)
    ↔ (v.longitude.toQ - u.longitude.toQ) ^ 2
        + (v.latitude.toQ - u.latitude.toQ) ^ 2 < t ^ 2 := by
  obtain ⟨a, ha⟩ : ∃ a, u.longitude = JsNum.val a := ⟨_, JsNum.eq_val_toQ hu1⟩
  obtain ⟨b, hb⟩ : ∃ b, u.latitude = JsNum.val b := ⟨_, JsNum.eq_val_toQ hu2⟩
  obtain ⟨e, he⟩ : ∃ e, v.longitude = JsNum.val e := ⟨_, JsNum.eq_val_toQ hv1⟩
  obtain ⟨f, hf⟩ : ∃ f, v.latitude = JsNum.val f := ⟨_, JsNum.eq_val_toQ hv2⟩
  rw [ha, hb, he, hf]
  simp [JsNum.sub, JsNum.mul, JsNum.add, JsNum.ltNum, JsNum.toQ, pow_two]

/-- C2: the proximity detector returns true iff some vessel/turtle pair from
the two subsets lies at squared planar degree-space distance strictly below
the squared threshold, and it returns false whenever either subset is empty
(the length guard short-circuits before any pair comparison). -/
theorem proximity_detect_spec (ts : List TurtleRec) (vs : List VesselRec) (t : ℚ)
    (h1 : ∀ u ∈ ts, u.longitude.isNaN = false ∧ u.latitude.isNaN = false)
    (h2 : ∀ v ∈ vs, v.longitude.isNaN = false ∧ v.latitude.isNaN = false) :
    (proximityFound ts vs t = true ↔
      ∃ v ∈ vs, ∃ u ∈ ts,
        (v.longitude.toQ - u.longitude.toQ) ^ 2
          + (v.latitude.toQ - u.latitude.toQ) ^ 2 < t ^ 2)
    ∧ (∀ vs2 : List VesselRec, proximityFound [] vs2 t = false)
    ∧ (∀ ts2 : List TurtleRec, proximityFound ts2 [] t = false) := by
  refine ⟨?_, ?_, ?_⟩
  · rcases ts with _ | ⟨u0, ts'⟩
    · simp [proximityFound]
    rcases vs with _ | ⟨v0, vs'⟩
    · simp [proximityFound]
    have hred : proximityFound (u0 :: ts') (v0 :: vs') t =
        (v0 :: vs').any (fun vessel =>
          (u0 :: ts').any (fun turtle =>
            (((vessel.longitude.sub turtle.longitude).mul
                (vessel.longitude.sub turtle.longitude)).add
              ((vessel.latitude.sub turtle.latitude).mul
                (vessel.latitude.sub turtle.latitude))).ltNum (t * t))) := by
      simp [proximityFound]
    rw [hred]
    simp only [List.any_eq_true]
    constructor
    · rintro ⟨v, hv, u, hu, hc⟩
      exact ⟨v, hv, u, hu,
        (proximity_pair_check v u t (h1 u hu).1 (h1 u hu).2
          (h2 v hv).1 (h2 v hv).2).mp hc⟩
    · rintro ⟨v, hv, u, hu, hd⟩
      exact ⟨v, hv, u, hu,
        (proximity_pair_check v u t (h1 u hu).1 (h1 u hu).2
          (h2 v hv).1 (h2 v hv).2).mpr hd⟩
  · intro vs2
    simp [proximityFound]
  · intro ts2
    simp [proximityFound]

/-- A turtle at longitude -62, latitude 45 (spec test 5). -/
def sampleTurtleNear : TurtleRec :=
  { latitude := JsNum.val 45, longitude := JsNum.val (-62),
    time_index := JsNum.val 0, is_trend := false }

/-- A vessel at longitude -61.8, latitude 45 (spec test 5). -/
def sampleVesselNear : VesselRec :=
  { latitude := JsNum.val 45, longitude := JsNum.val (-309/5),
    dateMs := 0, presence_hours := JsNum.val 1 }

/-- C2 witness: the turtle/vessel pair 0.2 degrees apart triggers the
detector at threshold 0.5. -/
theorem proximity_detect_spec_witness :
    proximityFound [sampleTurtleNear] [sampleVesselNear]
      PROXIMITY_THRESHOLD_DEG = true :=
  ((proximity_detect_spec [sampleTurtleNear] [sampleVesselNear]
      PROXIMITY_THRESHOLD_DEG (by decide) (by decide)).1).mpr
    ⟨sampleVesselNear, by simp, sampleTurtleNear, by simp,
      by norm_num [sampleTurtleNear, sampleVesselNear, JsNum.toQ,
        PROXIMITY_THRESHOLD_DEG]⟩

/-- The playback tick of Map.jsx lines 213-230 (animate): do nothing unless
playing; otherwise advance the cursor by speed / FPS (FPS fixed at 60) and
reset the cursor to 0 when the advanced value exceeds maxTime. -/
def animateTick (isPlaying : Bool) (speed timeFilter maxTime : ℚ) : ℚ :=
  if isPlaying = false then timeFilter
  else
    let FPS : ℚ := 60
    let STEP_PER_FRAME := speed / FPS
    let newTime := timeFilter + STEP_PER_FRAME
    if maxTime < newTime then 0 else newTime

/-- C3: while playing, a tick at cursor c and speed s sets the cursor to
c + s/60 when that stays within maxCursor, and to exactly 0 when it exceeds
maxCursor (an exact reset, not a clamp to maxCursor and not a modulo keeping
the overshoot). -/
theorem playback_tick_spec (c s maxC : ℚ) (hc0 : 0 ≤ c) (hc1 : c ≤ maxC)
    (hs0 : 1/10 ≤ s) (hs1 : s ≤ 5) :
    (c + s / 60 ≤ maxC → animateTick true s c maxC = c + s / 60)
    ∧ (maxC < c + s / 60 → animateTick true s c maxC = 0) := by
  constructor
  · intro h
    simp [animateTick, not_lt.mpr h]
  · intro h
    simp [animateTick, h]

/-- C3 witness: a tick at speed 5 from cursor 9.999 with maxCursor 10
overshoots and resets to exactly 0 (spec test 8). -/
theorem playback_tick_spec_witness :
    animateTick true 5 (9999/1000) 10 = 0 :=
  (playback_tick_spec (9999/1000) 5 10 (by norm_num) (by norm_num)
    (by norm_num) (by norm_num)).2 (by norm_num)

/-- C9: while playing, a tick from a cursor in [0, maxCursor] at any positive
speed leaves the cursor in [0, maxCursor]: the advanced value is kept only
when it is at most maxCursor, and is otherwise reset to 0. -/
theorem playback_tick_invariant (c s maxC : ℚ) (hc0 : 0 ≤ c) (hc1 : c ≤ maxC)
    (hs : 0 < s) :
    0 ≤ animateTick true s c maxC ∧ animateTick true s c maxC ≤ maxC := by
  have hmax : 0 ≤ maxC := le_trans hc0 hc1
  by_cases h : maxC < c + s / 60
  · simp [animateTick, h, hmax]
  · have hstep : 0 ≤ s / 60 := by positivity
    simp only [animateTick]
    simp [h, add_nonneg hc0 hstep, not_lt.mp h]

/-- C9 witness: a tick from cursor 0 at speed 1 with maxCursor 7 stays in
the valid range. -/
theorem playback_tick_invariant_witness :
    0 ≤ animateTick true 1 0 7 ∧ animateTick true 1 0 7 ≤ 7 :=
  playback_tick_invariant 0 1 7 (by norm_num) (by norm_num) (by norm_num)

/-- JS truncation toward zero, as used by the remainder operator. -/
def jsTrunc (x : ℚ) : ℤ := if 0 ≤ x then ⌊x⌋ else ⌈x⌉

/-- The JS remainder x % 1 of Map.jsx line 106: x minus its truncation
toward zero. -/
def jsMod1 (x : ℚ) : ℚ := x - jsTrunc x

/-- The integerDay derivation of Map.jsx line 283: Math.floor of the
continuous cursor. -/
def integerDay (timeFilterStart : ℚ) : ℤ := ⌊timeFilterStart⌋

/-- The continuous-mode filter range of Map.jsx lines 285-288:
[integerDay, integerDay + TIME_WINDOW_DAYS]. -/
def filterRange (timeFilterStart : ℚ) : ℤ × ℤ :=
  (integerDay timeFilterStart, integerDay timeFilterStart + TIME_WINDOW_DAYS)

/-- The hour-of-day shown in the window label, Map.jsx lines 106-108:
hours = (timeIndex % 1) * 24, displayed via toFixed(0), which rounds to the
nearest integer (ties rounded up) — Mathlib's round. -/
def hoursShown (timeIndex : ℚ) : ℤ := round (jsMod1 timeIndex * 24)

/-- C4 counterexample: at cursor c = 10.3125 the window is [10, 17) but the
hour shown is round(0.3125 * 24) = round 7.5 = 8, while truncating
frac(c) * 24 as the claim states would give floor 7.5 = 7. -/
theorem hour_display_counterexample :
    filterRange (165/16) = (10, 17)
    ∧ hoursShown (165/16) = 8
    ∧ ⌊(((165:ℚ)/16 - (⌊(165:ℚ)/16⌋ : ℤ)) * 24)⌋ = 7
    ∧ (8 : ℤ) ≠ 7 := by
  have hfloor : ⌊(165:ℚ)/16⌋ = 10 := by norm_num
  refine ⟨?_, ?_, ?_, by norm_num⟩
  · rw [filterRange, integerDay, hfloor]
    rfl
  · rw [hoursShown, jsMod1, jsTrunc, if_pos (by norm_num : (0:ℚ) ≤ 165/16), hfloor]
    norm_num [round_eq]
  · rw [hfloor]
    norm_num

/-- C4 (amended): for a nonnegative continuous cursor c the derived window is
[floor c, floor c + 7) regardless of the fractional part, and the hour shown
is frac(c) * 24 rounded to the nearest integer (ties up), not truncated;
for c = 10.5 the window is [10, 17) and the hour is 12. -/
theorem window_derivation_amended (c : ℚ) (hc : 0 ≤ c) :
    filterRange c = (⌊c⌋, ⌊c⌋ + 7)
    ∧ hoursShown c = round ((c - (⌊c⌋ : ℤ)) * 24)
    ∧ filterRange (21/2) = (10, 17)
    ∧ hoursShown (21/2) = 12 := by
  have hhalf : ⌊(21:ℚ)/2⌋ = 10 := by norm_num
  refine ⟨rfl, ?_, ?_, ?_⟩
  · rw [hoursShown, jsMod1, jsTrunc, if_pos hc]
  · rw [filterRange, integerDay, hhalf]
    rfl
  · rw [hoursShown, jsMod1, jsTrunc, if_pos (by norm_num : (0:ℚ) ≤ 21/2), hhalf]
    norm_num [round_eq]

/-- C4 witness: the amended derivation at the concrete cursor 10.5. -/
theorem window_derivation_amended_witness :
    filterRange (21/2) = (10, 17) ∧ hoursShown (21/2) = 12 :=
  ⟨(window_derivation_amended (21/2) (by norm_num)).2.2.1,
    (window_derivation_amended (21/2) (by norm_num)).2.2.2⟩

/-- The vessel load-time validation of TurtleMap.jsx line 248: keep a parsed
row iff none of latitude, longitude, presence_hours is NaN. -/
def parsedVesselData (rows : List VesselRec) : List VesselRec :=
  rows.filter (fun d =>
    !d.latitude.isNaN && !d.longitude.isNaN && !d.presence_hours.isNaN)

/-- A vessel row whose presence_hours parsed to the finite negative number
-3: it passes the NaN filter. -/
def badVessel : VesselRec :=
  { latitude := JsNum.val 45, longitude := JsNum.val (-62),
    dateMs := 0, presence_hours := JsNum.val (-3) }

/-- A vessel row whose presence_hours failed numeric parsing. -/
def nanVessel : VesselRec :=
  { latitude := JsNum.val 45, longitude := JsNum.val (-62),
    dateMs := 0, presence_hours := JsNum.nan }

/-- C8 counterexample: the load filter keeps a row with presence_hours -3
(a finite negative number), so the store is not guaranteed to hold only
non-negative presence_hours. -/
theorem vessel_nonneg_counterexample :
    parsedVesselData [badVessel] = [badVessel]
    ∧ badVessel.presence_hours = JsNum.val (-3)
    ∧ ¬ (0 : ℚ) ≤ -3 := by
  refine ⟨by decide, rfl, by norm_num⟩

/-- C8 (amended): rows with a NaN latitude, longitude or presence_hours are
silently dropped at load time and all other rows are kept in order, so every
vessel record in the store has non-NaN latitude, longitude and
presence_hours; non-negativity of presence_hours is not enforced. -/
theorem vessel_parse_drops_nan (rows : List VesselRec) :
    (parsedVesselData rows).Sublist rows
    ∧ (∀ r ∈ parsedVesselData rows,
        r.latitude.isNaN = false ∧ r.longitude.isNaN = false
          ∧ r.presence_hours.isNaN = false)
    ∧ (∀ r ∈ rows,
        r.latitude.isNaN = false → r.longitude.isNaN = false →
        r.presence_hours.isNaN = false → r ∈ parsedVesselData rows) := by
  refine ⟨List.filter_sublist rows, ?_, ?_⟩
  · intro r hr
    rw [parsedVesselData, List.mem_filter] at hr
    obtain ⟨-, hcond⟩ := hr
    simp only [Bool.and_eq_true, Bool.not_eq_true'] at hcond
    exact ⟨hcond.1.1, hcond.1.2, hcond.2⟩
  · intro r hr h1 h2 h3
    rw [parsedVesselData, List.mem_filter]
    refine ⟨hr, ?_⟩
    simp [h1, h2, h3]

/-- C8 witness: on the two-row input, the NaN row is dropped and the
numeric row is kept. -/
theorem vessel_parse_drops_nan_witness :
    badVessel ∈ parsedVesselData [badVessel, nanVessel]
    ∧ ∀ r ∈ parsedVesselData [badVessel, nanVessel],
        r.presence_hours.isNaN = false :=
  ⟨(vessel_parse_drops_nan [badVessel, nanVessel]).2.2 badVessel (by decide)
      rfl rfl rfl,
    fun r hr => ((vessel_parse_drops_nan [badVessel, nanVessel]).2.1 r hr).2.2⟩

/-- The sighting/trend load-time filter of TurtleMap.jsx line 235: keep a
parsed row iff time_index >= 0 under JS comparison (false for NaN). -/
def filteredTurtleData (parsed : List TurtleRec) : List TurtleRec :=
  parsed.filter (fun d => d.time_index.geNum 0)

/-- The turtle store of TurtleMap.jsx line 236: non-trend rows of the
filtered data. -/
def turtleStore (parsed : List TurtleRec) : List TurtleRec :=
  (filteredTurtleData parsed).filter (fun d => !d.is_trend)

/-- The trend store of TurtleMap.jsx line 237: trend rows of the filtered
data. -/
def trendStore (parsed : List TurtleRec) : List TurtleRec :=
  (filteredTurtleData parsed).filter (fun d => d.is_trend)

/-- C10: after load, every record in the turtle store or the trend store has
a numeric time_index >= 0; rows whose time_index is NaN, and rows whose
time_index is negative, are excluded from both stores. -/
theorem load_store_time_index_nonneg :
    (∀ (parsed : List TurtleRec) (r : TurtleRec),
        r ∈ turtleStore parsed ∨ r ∈ trendStore parsed →
        ∃ t : ℚ, r.time_index = JsNum.val t ∧ 0 ≤ t)
    ∧ (∀ (parsed : List TurtleRec) (r : TurtleRec),
        r.time_index = JsNum.nan → r ∉ filteredTurtleData parsed)
    ∧ (∀ (parsed : List TurtleRec) (r : TurtleRec) (t : ℚ),
        r.time_index = JsNum.val t → t < 0 → r ∉ filteredTurtleData parsed) := by
  have hmem : ∀ (parsed : List TurtleRec) (r : TurtleRec),
      r ∈ filteredTurtleData parsed → ∃ t : ℚ, r.time_index = JsNum.val t ∧ 0 ≤ t := by
    intro parsed r hr
    rw [filteredTurtleData, List.mem_filter] at hr
    obtain ⟨-, hge⟩ := hr
    cases hti : r.time_index with
    | nan => rw [hti, JsNum.geNum] at hge; exact absurd hge (by simp)
    | val q =>
        rw [hti, JsNum.geNum, decide_eq_true_eq] at hge
        exact ⟨q, rfl, hge⟩
  refine ⟨?_, ?_, ?_⟩
  · intro parsed r hr
    rcases hr with hr | hr
    · rw [turtleStore, List.mem_filter] at hr
      exact hmem parsed r hr.1
    · rw [trendStore, List.mem_filter] at hr
      exact hmem parsed r hr.1
  · intro parsed r hnan hr
    obtain ⟨t, ht, -⟩ := hmem parsed r hr
    rw [hnan] at ht
    exact JsNum.noConfusion ht
  · intro parsed r t ht hneg hr
    obtain ⟨q, hq, hq0⟩ := hmem parsed r hr
    rw [ht] at hq
    injection hq with h
    rw [h] at hneg
    exact absurd hq0 (not_le.mpr hneg)

/-- C10 witness: a sighting row with time index 3 lands in the turtle store
with a nonnegative numeric time index. -/
theorem load_store_time_index_nonneg_witness :
    ∃ t : ℚ, (sampleRec 3).time_index = JsNum.val t ∧ 0 ≤ t :=
  load_store_time_index_nonneg.1 [sampleRec 3] (sampleRec 3)
    (Or.inl (by decide))

end GeoApp
